import Mathlib

/-!
Verification of the analysis pipeline and response-normalization layer of the
Agentic Bug Hunter repository.

The Python sources (`utils/code_analyzer.py`, `utils/cpp_checker.py`,
`bug_agent.py`) are shallowly embedded below.  Python strings are modelled as
`List Char`; fallible Python code (code that can raise) is modelled in
`Except String`; the dynamic values produced by `json.loads` are modelled by
the inductive type `Json`.  External collaborators (the MCP retrieval service,
the cppcheck subprocess, the HTTP model endpoint) are modelled as explicit
outcome parameters, since the repository treats them as opaque.
Exception *messages* are abstracted: the embedding preserves which operations
raise, not the exact Python message text.
-/

namespace BugHunter

/-- Python strings are modelled as lists of characters. -/
abbrev Str := List Char

/-- Python ASCII whitespace, as recognised by `str.strip()`, `str.split()` and
the regex class `\s`. -/
def pyIsSpace (c : Char) : Bool :=
  c = ' ' || c = '\t' || c = '\n' || c = '\r' || c = '\x0b' || c = '\x0c'

/-- Python `str.strip()`: remove leading and trailing whitespace. -/
def pyStrip (s : Str) : Str :=
  ((s.dropWhile pyIsSpace).reverse.dropWhile pyIsSpace).reverse

/-- Auxiliary for `pyWords`: `acc` holds the reversed characters of the word
currently being read. -/
def pyWordsAux : Str → Str → List Str
  | [], acc => if acc = [] then [] else [acc.reverse]
  | c :: cs, acc =>
    if pyIsSpace c then
      if acc = [] then pyWordsAux cs [] else acc.reverse :: pyWordsAux cs []
    else pyWordsAux cs (c :: acc)

/-- Python `str.split()` with no argument: the whitespace-separated words of a
string, with no empty words. -/
def pyWords (s : Str) : List Str := pyWordsAux s []

/-- Python `str.split("\n")`: split on each newline, keeping empty pieces; the
result is never the empty list (`"".split("\n") == [""]`). -/
def splitNl : Str → List Str
  | [] => [[]]
  | c :: cs =>
    if c = '\n' then [] :: splitNl cs
    else
      match splitNl cs with
      | [] => [[c]]
      | l :: ls => (c :: l) :: ls

/-- Decimal digits of a natural number, as characters. -/
def natDigits (n : Nat) : Str := (Nat.repr n).data

/-- Decimal rendering of an integer, as Python `str` would print it. -/
def intDigits (n : Int) : Str :=
  if n < 0 then '-' :: natDigits n.natAbs else natDigits n.natAbs

/-- Whether `pat` is a prefix of `s` (by character equality). -/
def strStartsWith (s pat : Str) : Bool := s.take pat.length == pat

/-- Whether `pat` occurs as a contiguous substring of `s`
(Python `pat in s` for strings). -/
def strContainsSub (s pat : Str) : Bool :=
  (List.range (s.length + 1)).any (fun i => strStartsWith (s.drop i) pat)

/-- Python `s.replace(pat, "")` (all non-overlapping occurrences, left to
right), fuelled by the length of `s`. -/
def replaceDropAux : Nat → Str → Str → Str
  | 0, s, _ => s
  | fuel + 1, s, pat =>
    if pat ≠ [] ∧ strStartsWith s pat then replaceDropAux fuel (s.drop pat.length) pat
    else
      match s with
      | [] => []
      | c :: cs => c :: replaceDropAux fuel cs pat

/-- Python `s.replace(pat, "")`. -/
def replaceDrop (s pat : Str) : Str := replaceDropAux (s.length + 1) s pat

/-- Dynamic values produced by Python `json.loads`.  JSON numbers without a
fraction or exponent become Python `int` (`Json.int`); all other numbers
become Python `float`, modelled exactly by the decimal they were written as:
`Json.float m e` stands for the value `m / 10 ^ e`.  (Python floats are
binary; the claims only exercise values and formattings on which the decimal
and the binary reading agree.) -/
inductive Json where
  | null : Json
  | bool (b : Bool) : Json
  | int (n : Int) : Json
  | float (m : Int) (e : Nat) : Json
  | str (s : Str) : Json
  | arr (items : List Json) : Json
  | obj (fields : List (Str × Json)) : Json

mutual

/-- Structural boolean equality on `Json` values. -/
def jsonBeq : Json → Json → Bool
  | .null, .null => true
  | .bool a, .bool b => a == b
  | .int a, .int b => a == b
  | .float a ea, .float b eb => a == b && ea == eb
  | .str a, .str b => a == b
  | .arr a, .arr b => jsonListBeq a b
  | .obj a, .obj b => jsonFieldsBeq a b
  | _, _ => false

/-- Pointwise `jsonBeq` on lists. -/
def jsonListBeq : List Json → List Json → Bool
  | [], [] => true
  | x :: xs, y :: ys => jsonBeq x y && jsonListBeq xs ys
  | _, _ => false

/-- Pointwise `jsonBeq` on object field lists. -/
def jsonFieldsBeq : List (Str × Json) → List (Str × Json) → Bool
  | [], [] => true
  | (k1, v1) :: xs, (k2, v2) :: ys => k1 == k2 && jsonBeq v1 v2 && jsonFieldsBeq xs ys
  | _, _ => false

end

/-- Python truthiness of a (JSON-derived) value. -/
def pyTruthy : Json → Bool
  | .null => false
  | .bool b => b
  | .int n => n != 0
  | .float m _ => m != 0
  | .str s => !s.isEmpty
  | .arr l => !l.isEmpty
  | .obj f => !f.isEmpty

/-- Python `dict` lookup on the field list of a JSON object: with duplicate
keys, the last occurrence wins (as in `json.loads`). -/
def jsonLookup (fields : List (Str × Json)) (k : Str) : Option Json :=
  (fields.reverse.find? (fun p => p.1 == k)).map (fun p => p.2)

/-- Python `d.get(k, dflt)` on a JSON object field list. -/
def pyDictGet (fields : List (Str × Json)) (k : Str) (dflt : Json) : Json :=
  (jsonLookup fields k).getD dflt

/-- JSON structural whitespace (RFC 8259: space, tab, newline, carriage
return), as skipped by `json.loads`. -/
def jsonIsWs (c : Char) : Bool := c = ' ' || c = '\t' || c = '\n' || c = '\r'

/-- Skip JSON structural whitespace. -/
def jsonSkipWs (cs : Str) : Str := cs.dropWhile jsonIsWs

/-- Value of a hexadecimal digit. -/
def hexVal (c : Char) : Option Nat :=
  if '0' ≤ c ∧ c ≤ '9' then some (c.toNat - 48)
  else if 'a' ≤ c ∧ c ≤ 'f' then some (c.toNat - 87)
  else if 'A' ≤ c ∧ c ≤ 'F' then some (c.toNat - 70)
  else none

/-- Natural number denoted by a list of decimal digit characters. -/
def digitsToNat (ds : Str) : Nat := ds.foldl (fun a c => a * 10 + (c.toNat - 48)) 0

/-- Parse the remainder of a JSON string literal (after the opening quote),
returning the decoded characters and the rest of the input.  Strict mode as in
`json.loads`: raw control characters are rejected.  Surrogate escapes are not
modelled. -/
def parseJStr : Nat → Str → Option (Str × Str)
  | 0, _ => none
  | _, [] => none
  | fuel + 1, c :: cs =>
    if c = '"' then some ([], cs)
    else if c = '\\' then
      match cs with
      | [] => none
      | e :: cs2 =>
        let esc : Option (Char × Str) :=
          if e = '"' then some ('"', cs2)
          else if e = '\\' then some ('\\', cs2)
          else if e = '/' then some ('/', cs2)
          else if e = 'b' then some ('\x08', cs2)
          else if e = 'f' then some ('\x0c', cs2)
          else if e = 'n' then some ('\n', cs2)
          else if e = 'r' then some ('\r', cs2)
          else if e = 't' then some ('\t', cs2)
          else if e = 'u' then
            match cs2 with
            | h1 :: h2 :: h3 :: h4 :: rest =>
              match hexVal h1, hexVal h2, hexVal h3, hexVal h4 with
              | some a, some b, some c3, some d =>
                let n := ((a * 16 + b) * 16 + c3) * 16 + d
                if 55296 ≤ n ∧ n < 57344 then none else some (Char.ofNat n, rest)
              | _, _, _, _ => none
            | _ => none
          else none
        match esc with
        | none => none
        | some (d, rest) =>
          match parseJStr fuel rest with
          | some (s, r) => some (d :: s, r)
          | none => none
    else if c.toNat < 32 then none
    else
      match parseJStr fuel cs with
      | some (s, r) => some (c :: s, r)
      | none => none

/-- Parse a JSON number at the head of the input (strict grammar: optional
minus, no leading zeros, optional fraction and exponent).  Numbers with a
fraction or exponent come back as `Json.float`, the rest as `Json.int`. -/
def parseJNum (cs : Str) : Option (Json × Str) :=
  let neg := strStartsWith cs ['-']
  let cs1 := if neg then cs.drop 1 else cs
  let ds := cs1.takeWhile Char.isDigit
  let cs2 := cs1.drop ds.length
  if ds = [] then none
  else if ds.length > 1 ∧ ds.headD '0' = '0' then none
  else
    let ipart : Nat := digitsToNat ds
    let hasFrac := strStartsWith cs2 ['.']
    let fds := if hasFrac then (cs2.drop 1).takeWhile Char.isDigit else []
    if hasFrac ∧ fds = [] then none
    else
      let cs3 := if hasFrac then (cs2.drop 1).drop fds.length else cs2
      let hasExp := strStartsWith cs3 ['e'] || strStartsWith cs3 ['E']
      if hasExp then
        let cs4 := cs3.drop 1
        let expNeg := strStartsWith cs4 ['-']
        let cs5 := if expNeg || strStartsWith cs4 ['+'] then cs4.drop 1 else cs4
        let eds := cs5.takeWhile Char.isDigit
        if eds = [] then none
        else
          let cs6 := cs5.drop eds.length
          let baseM : Nat := ipart * 10 ^ fds.length + digitsToNat fds
          let ev : Nat := digitsToNat eds
          let m : Int := if expNeg then (baseM : Int) else (baseM : Int) * (10 : Int) ^ ev
          let e : Nat := if expNeg then fds.length + ev else fds.length
          some (.float (if neg then -m else m) e, cs6)
      else if hasFrac then
        let baseM : Nat := ipart * 10 ^ fds.length + digitsToNat fds
        some (.float (if neg then -(baseM : Int) else (baseM : Int)) fds.length, cs3)
      else
        some (.int (if neg then -(ipart : Int) else (ipart : Int)), cs3)

mutual

/-- Parse one JSON value (after skipping leading whitespace), returning the
value and the unconsumed input.  Fuelled; `jsonLoads` supplies enough fuel.
The non-standard `NaN`/`Infinity` literals accepted by Python are not
modelled. -/
def parseJVal : Nat → Str → Option (Json × Str)
  | 0, _ => none
  | fuel + 1, cs0 =>
    match jsonSkipWs cs0 with
    | [] => none
    | c :: rest =>
      if c = '"' then
        match parseJStr (rest.length + 1) rest with
        | some (s, r) => some (.str s, r)
        | none => none
      else if c = '\x7b' then
        match jsonSkipWs rest with
        | '\x7d' :: r => some (.obj [], r)
        | r => parseJMembers fuel r []
      else if c = '[' then
        match jsonSkipWs rest with
        | ']' :: r => some (.arr [], r)
        | r => parseJItems fuel r []
      else if strStartsWith (c :: rest) (("true").data) then
        some (.bool true, (c :: rest).drop 4)
      else if strStartsWith (c :: rest) (("false").data) then
        some (.bool false, (c :: rest).drop 5)
      else if strStartsWith (c :: rest) (("null").data) then
        some (.null, (c :: rest).drop 4)
      else parseJNum (c :: rest)

/-- Parse the members of a JSON object after its opening brace (at least one
member expected; `acc` holds the members parsed so far). -/
def parseJMembers : Nat → Str → List (Str × Json) → Option (Json × Str)
  | 0, _, _ => none
  | fuel + 1, cs, acc =>
    match jsonSkipWs cs with
    | '"' :: r =>
      match parseJStr (r.length + 1) r with
      | none => none
      | some (k, r2) =>
        match jsonSkipWs r2 with
        | ':' :: r3 =>
          match parseJVal fuel r3 with
          | none => none
          | some (v, r4) =>
            match jsonSkipWs r4 with
            | ',' :: r5 => parseJMembers fuel r5 (acc ++ [(k, v)])
            | '\x7d' :: r5 => some (.obj (acc ++ [(k, v)]), r5)
            | _ => none
        | _ => none
    | _ => none

/-- Parse the items of a JSON array after its opening bracket (at least one
item expected; `acc` holds the items parsed so far). -/
def parseJItems : Nat → Str → List Json → Option (Json × Str)
  | 0, _, _ => none
  | fuel + 1, cs, acc =>
    match parseJVal fuel cs with
    | none => none
    | some (v, r) =>
      match jsonSkipWs r with
      | ',' :: r2 => parseJItems fuel r2 (acc ++ [v])
      | ']' :: r2 => some (.arr (acc ++ [v]), r2)
      | _ => none

end

/-- Python `json.loads`: parse a complete JSON document, requiring only
whitespace after the value.  `none` models `json.JSONDecodeError`. -/
def jsonLoads (s : Str) : Option Json :=
  match parseJVal (s.length + 1) s with
  | some (v, rest) => if jsonSkipWs rest = [] then some v else none
  | none => none

/-- Decimal rendering of the float value `m / 10 ^ e`, roughly as Python
prints a float: the integer part, then the fractional digits with trailing
zeros removed (but at least one digit).  Python's shortest-roundtrip binary
float printing is not modelled in general. -/
def decDigits (m : Int) (e : Nat) : Str :=
  let sign : Str := if m < 0 then ['-'] else []
  let a := m.natAbs
  let fs := natDigits (a % 10 ^ e)
  let fs := List.replicate (e - fs.length) '0' ++ fs
  let fs := (fs.reverse.dropWhile (fun c => c = '0')).reverse
  sign ++ natDigits (a / 10 ^ e) ++ '.' :: (if fs = [] then ['0'] else fs)

mutual

/-- Python `repr` of a JSON-derived value (as used by `str` on containers).
String quoting/escaping inside containers is simplified to bare
single-quoting. -/
def pyRepr : Json → Str
  | .null => ("None").data
  | .bool true => ("True").data
  | .bool false => ("False").data
  | .int n => intDigits n
  | .float m e => decDigits m e
  | .str s => '\x27' :: s ++ ['\x27']
  | .arr l => '[' :: List.intercalate [',', ' '] (pyReprList l) ++ [']']
  | .obj f => '\x7b' :: List.intercalate [',', ' '] (pyReprFields f) ++ ['\x7d']

/-- `pyRepr` mapped over a list. -/
def pyReprList : List Json → List Str
  | [] => []
  | x :: xs => pyRepr x :: pyReprList xs

/-- `pyRepr` of the key/value pairs of an object. -/
def pyReprFields : List (Str × Json) → List Str
  | [] => []
  | (k, v) :: xs => ('\x27' :: k ++ '\x27' :: ':' :: ' ' :: pyRepr v) :: pyReprFields xs

end

/-- Python `str()` of a JSON-derived value. -/
def pyStrOfJson : Json → Str
  | .str s => s
  | v => pyRepr v

/-- Escape one character as `json.dumps` does with its default
`ensure_ascii=True` (code points above `0xFFFF` would use surrogate pairs,
not modelled). -/
def dumpsEscChar (c : Char) : Str :=
  if c = '"' then ['\\', '"']
  else if c = '\\' then ['\\', '\\']
  else if c = '\n' then ['\\', 'n']
  else if c = '\t' then ['\\', 't']
  else if c = '\r' then ['\\', 'r']
  else if c.toNat < 32 ∨ c.toNat > 126 then
    let hx : Str := (Nat.toDigits 16 c.toNat).map (fun d => d)
    '\\' :: 'u' :: (List.replicate (4 - hx.length) '0' ++ hx)
  else [c]

mutual

/-- Python `json.dumps` with default options (separators `", "` and `": "`,
`ensure_ascii=True`). -/
def pyDumps : Json → Str
  | .null => ("null").data
  | .bool true => ("true").data
  | .bool false => ("false").data
  | .int n => intDigits n
  | .float m e => decDigits m e
  | .str s => '"' :: (s.map dumpsEscChar).flatten ++ ['"']
  | .arr l => '[' :: List.intercalate [',', ' '] (pyDumpsList l) ++ [']']
  | .obj f => '\x7b' :: List.intercalate [',', ' '] (pyDumpsFields f) ++ ['\x7d']

/-- `pyDumps` mapped over a list. -/
def pyDumpsList : List Json → List Str
  | [] => []
  | x :: xs => pyDumps x :: pyDumpsList xs

/-- `pyDumps` of the key/value pairs of an object. -/
def pyDumpsFields : List (Str × Json) → List Str
  | [] => []
  | (k, v) :: xs =>
    ('"' :: (k.map dumpsEscChar).flatten ++ '"' :: ':' :: ' ' :: pyDumps v) :: pyDumpsFields xs

end

/-- Source: `utils/code_analyzer.py`, `add_line_numbers`.  Number each line of
the code, 1-based, and rejoin with newlines. -/
def add_line_numbers (code : Str) : Str :=
  let lines := splitNl code
  let numbered := lines.enum.map (fun p => natDigits (p.1 + 1) ++ ':' :: ' ' :: p.2)
  List.intercalate ['\n'] numbered

/-- The documentation section of the prompt: emitted only when the formatted
documentation text is non-blank. -/
def ragSection (rag_docs : Str) : Str :=
  if rag_docs ≠ [] ∧ pyStrip rag_docs ≠ [] then
    ("\n**Relevant API Documentation (from knowledge base):**\n").data ++ rag_docs ++ ['\n']
  else []

/-- The static-findings section of the prompt: emitted only when the findings
text is non-blank. -/
def staticSection (static_errors : Str) : Str :=
  if static_errors ≠ [] ∧ pyStrip static_errors ≠ [] then
    ("\n**Static Analysis Findings (CppCheck):**\n").data ++ static_errors ++
      ("\n(Note: Use these findings as strong evidence, but verify them against the context.)\n").data
  else []

/-- Source: `utils/code_analyzer.py`, `build_analysis_prompt`.  The fixed
instruction-plus-evidence prompt; the documentation and static-findings
sections are omitted entirely when their text is blank. -/
def build_analysis_prompt (numbered_code context : Str) (rag_docs : Str := [])
    (static_errors : Str := []) : Str :=
  let rag_section : Str := ragSection rag_docs
  let static_section : Str := staticSection static_errors
  ("You are an expert bug detector for RDI/SmartRDI embedded test code. Find ALL bugs and provide the CORRECTED code.\n\n**Context:** ").data
    ++ context ++ ['\n'] ++ rag_section ++ ['\n'] ++ static_section
    ++ ("\n**Code:**\n```\n").data ++ numbered_code
    ++ ("\n```\n\n**Bug categories to check:**\n- Wrong/misspelled function names (e.g., readHumanSeniority vs readHumSensor, iMeans vs iMeas)\n- Wrong argument order (e.g., iClamp(high, low) should be iClamp(low, high))\n- Values exceeding documented ranges.\n- Wrong API calls (e.g., use execute() instead of burst()).\n- Variable mismatches.\n- Lifecycle errors (e.g., RDI_END before RDI_BEGIN).\n- Pin name typos (e.g., \"D0\" vs \"DO\").\n\n**FEW-SHOT EXAMPLES:**\n\nExample 1:\nCode: `2: rdi.pmux(4).module(\"02\").readHumanSeniority().execute();`\nOutput: \x7b\"bug_lines\": [2], \"explanations\": [\"readHumanSeniority -> readHumSensor\"], \"corrected_code\": \"rdi.pmux(4).module(\\\"02\\\").readHumSensor().execute();\"\x7d\n\nExample 2:\nCode: `3: iClamp(50 mA, -50 mA);`\nOutput: \x7b\"bug_lines\": [3], \"explanations\": [\"iClamp args swapped\"], \"corrected_code\": \"iClamp(-50 mA, 50 mA);\"\x7d\n\n**RULES:**\n1. Explanations MUST be under 10 words.\n2. Report the exact line number.\n3. Provide the COMPLETE corrected line(s) of code in `corrected_code`. If multiple lines are wrong, fix all of them.\n4. Respond with ONLY the JSON object.\n\n\x7b\"bug_lines\": [line_numbers], \"explanations\": [\"short explanation\"], \"corrected_code\": \"full corrected code snippet\"\x7d").data

/-- Whether a fence delimiter (three backticks) starts at index `i`. -/
def isTripleAt (cs : Str) (i : Nat) : Bool := (cs.drop i).take 3 == ['`', '`', '`']

/-- Model of `re.search(r"```(?:json)?\s*\n?(.*?)\n?```", text, re.DOTALL)`:
the matched start is the first fence delimiter that has a closing delimiter at
least three characters later; the group is the text between the delimiters,
after the optional `json` tag and leading whitespace, minus one trailing
newline. -/
def fenceExtract (cs : Str) : Option Str :=
  let idxs := (List.range cs.length).filter (fun i => isTripleAt cs i)
  match idxs.find? (fun i => idxs.any (fun j => decide (i + 3 ≤ j))) with
  | none => none
  | some i =>
    let r1 := cs.drop (i + 3)
    let r2 := if r1.take 4 == ("json").data then r1.drop 4 else r1
    let r3 := r2.dropWhile pyIsSpace
    let stop := ((List.range r3.length).find? (fun j => isTripleAt r3 j)).getD r3.length
    let content := r3.take stop
    some (if content.getLast? = some '\n' then content.dropLast else content)

/-- Model of `re.search(r"\{.*\}", text, re.DOTALL)`: the span from the first
opening brace that has some closing brace after it, to the last closing brace
in the text. -/
def braceExtract (cs : Str) : Option Str :=
  let opens := (List.range cs.length).filter (fun a => cs.getD a ' ' == '\x7b')
  let closes := (List.range cs.length).filter (fun b => cs.getD b ' ' == '\x7d')
  match opens.find? (fun a => closes.any (fun b => decide (a < b))) with
  | none => none
  | some a =>
    let b := closes.foldl max 0
    some ((cs.take (b + 1)).drop a)

/-- Source: `utils/code_analyzer.py`, lines 80-90 of `parse_llm_response`: the
candidate text handed to `json.loads` — the stripped raw reply, narrowed to a
fenced block if one is present, then to a brace-delimited span if one is
present. -/
def extractCandidate (s : Str) : Str :=
  let text := pyStrip s
  let text :=
    match fenceExtract text with
    | some inner => pyStrip inner
    | none => text
  match braceExtract text with
  | some t => t
  | none => text

/-- Source: `utils/code_analyzer.py`, `_truncate`: keep a text unchanged when
it has at most `maxWords` whitespace-separated words, else rejoin its first
`maxWords` words with single spaces. -/
def pyTruncate (s : Str) (maxWords : Nat := 15) : Str :=
  let ws := pyWords s
  if ws.length ≤ maxWords then s else List.intercalate [' '] (ws.take maxWords)

/-- The structured record produced by the Response Normalizer.
`corrected_code` is kept as a dynamic value: the source passes the parsed
`corrected_code` field through unmodified, whatever its type. -/
structure ParseResult where
  bug_lines : List Str
  explanations : List Str
  corrected_code : Json

/-- The all-empty default result of `parse_llm_response`. -/
def defaultResult : ParseResult := ⟨[], [], .str []⟩

/-- The punctuation accepted after the line number by the fallback regex:
colon, hyphen, or en-dash (`–`). -/
def fallbackPunct (c : Char) : Bool := c = ':' || c = '-' || c = '–'

/-- One anchored attempt of the fallback regex
`[Ll]ine\s+(\d+)\s*[:\-–]\s*(.+?)(?:\n|$)` at the head of `cs`: on
success, the digits of group 1, the raw text of group 2, and the input
remaining after the match (the terminating newline consumed). -/
def matchLineAt (cs : Str) : Option (Str × Str × Str) :=
  match cs with
  | c0 :: 'i' :: 'n' :: 'e' :: r0 =>
    if c0 = 'L' ∨ c0 = 'l' then
      let ws1 := r0.takeWhile pyIsSpace
      let r1 := r0.drop ws1.length
      if ws1 = [] then none
      else
        let ds := r1.takeWhile Char.isDigit
        let r2 := r1.drop ds.length
        if ds = [] then none
        else
          let r3 := r2.dropWhile pyIsSpace
          match r3 with
          | p :: r4 =>
            if fallbackPunct p then
              let rR := r4.dropWhile pyIsSpace
              if rR ≠ [] then
                let content := rR.takeWhile (fun c => c ≠ '\n')
                let after := rR.drop content.length
                some (ds, content, if after.headD ' ' = '\n' then after.drop 1 else after)
              else
                match ((List.range r4.length).filter
                    (fun k => r4.getD k '\n' ≠ '\n')).getLast? with
                | none => none
                | some k =>
                  let content := (r4.drop k).takeWhile (fun c => c ≠ '\n')
                  let after := (r4.drop k).drop content.length
                  some (ds, content, if after.headD ' ' = '\n' then after.drop 1 else after)
            else none
          | [] => none
    else none
  | _ => none

/-- Model of `line_pattern.finditer(response)`: scan left to right, taking
non-overlapping matches of the fallback line pattern; each match contributes
the pair (group 1, stripped group 2). -/
def scanLines : Nat → Str → List (Str × Str)
  | 0, _ => []
  | _ + 1, [] => []
  | fuel + 1, c :: tail =>
    match matchLineAt (c :: tail) with
    | some (ds, content, rest) => (ds, pyStrip content) :: scanLines fuel rest
    | none => scanLines fuel tail

/-- Case-insensitive literal prefix test (`pat` must be lowercase). -/
def matchesCI (cs pat : Str) : Bool := (cs.take pat.length).map Char.toLower == pat

/-- One anchored attempt of the corrected-code regex
`Corrected Code:?\s*```(?:cpp|c)?\n?(.*?)```` (DOTALL, IGNORECASE) at the head
of `cs`: on success, the raw text of group 1. -/
def ccAttempt (cs : Str) : Option Str :=
  if matchesCI cs ("corrected code").data then
    let r0 := cs.drop 14
    let r1 := if r0.headD ' ' = ':' then r0.drop 1 else r0
    let r2 := r1.dropWhile pyIsSpace
    if r2.take 3 == ['`', '`', '`'] then
      let r3 := r2.drop 3
      let r4 :=
        if matchesCI r3 ("cpp").data then r3.drop 3
        else if matchesCI r3 ("c").data then r3.drop 1
        else r3
      let r5 := if r4.headD ' ' = '\n' then r4.drop 1 else r4
      match (List.range r5.length).find? (fun j => isTripleAt r5 j) with
      | some j => some (r5.take j)
      | none => none
    else none
  else none

/-- Model of the `re.search` for the corrected-code block in
`_fallback_parse`: the first position whose anchored attempt succeeds. -/
def ccScan : Nat → Str → Option Str
  | 0, _ => none
  | _ + 1, [] => none
  | fuel + 1, c :: tail =>
    match ccAttempt (c :: tail) with
    | some s => some s
    | none => ccScan fuel tail

/-- Source: `utils/code_analyzer.py`, `_fallback_parse`.  The heuristic text
parser used when structured extraction fails: each `Line <n>: text` match
contributes one bug-line/explanation pair, and an optional
`Corrected Code:`-labelled fenced block gives the corrected code. -/
def fallbackParse (response : Str) : ParseResult :=
  let pairs := scanLines (response.length + 1) response
  let corrected :=
    match ccScan (response.length + 1) response with
    | some c => pyStrip c
    | none => []
  ⟨pairs.map (fun p => p.1), pairs.map (fun p => p.2), .str corrected⟩

/-- Source: `utils/code_analyzer.py`, lines 107-111 of `parse_llm_response`:
the two `while` loops that reconcile the list lengths, appending the literal
`"Bug detected"` to short explanations and `""` to short bug-line lists. -/
def reconcile (bug_lines explanations : List Str) : List Str × List Str :=
  let n := max bug_lines.length explanations.length
  (bug_lines ++ List.replicate (n - bug_lines.length) [],
   explanations ++ List.replicate (n - explanations.length) ("Bug detected").data)

/-- Python `[str(line) for line in bug_lines]`: iterating a list yields its
items, a string its characters, a dict its keys; other values raise
`TypeError`. -/
def pyIterToStrs : Json → Except String (List Str)
  | .arr l => .ok (l.map pyStrOfJson)
  | .str s => .ok (s.map (fun c => [c]))
  | .obj f => .ok (f.map (fun p => p.1))
  | _ => .error "TypeError: not iterable"

/-- The elementwise truncation of a list of parsed explanation values: each
item must be a string (else `_truncate` raises `AttributeError` on
`.split()`), and each is truncated to 15 words. -/
def truncStrs : List Json → Except String (List Str)
  | [] => .ok []
  | .str s :: rest => do
    let tail ← truncStrs rest
    .ok (pyTruncate s 15 :: tail)
  | _ :: _ => .error "AttributeError: split"

/-- Python `[_truncate(e, max_words=15) for e in explanations]`: as
`pyIterToStrs`, but `_truncate` calls `.split()` on each item, so a list
containing a non-string item raises `AttributeError`. -/
def pyIterTrunc : Json → Except String (List Str)
  | .arr l => truncStrs l
  | .str s => .ok (s.map (fun c => pyTruncate [c] 15))
  | .obj f => .ok (f.map (fun p => pyTruncate p.1 15))
  | _ => .error "TypeError: not iterable"

/-- Source: `utils/code_analyzer.py`, `parse_llm_response`, applied to a
string reply: return the all-empty default for blank replies, otherwise
strictly parse the extracted candidate, falling back to `fallbackParse` over
the original raw reply on `JSONDecodeError`.  A successful `json.loads` of a
non-dict value makes the subsequent `.get` raise `AttributeError`. -/
def parseLLMString (s : Str) : Except String ParseResult :=
  if pyStrip s = [] then .ok defaultResult
  else
    match jsonLoads (extractCandidate s) with
    | none => .ok (fallbackParse s)
    | some (.obj fields) => do
      let blRaw := pyDictGet fields ("bug_lines").data (.arr [])
      let exRaw := pyDictGet fields ("explanations").data (.arr [])
      let corrected := pyDictGet fields ("corrected_code").data (.str [])
      let bl ← pyIterToStrs blRaw
      let ex ← pyIterTrunc exRaw
      let r := reconcile bl ex
      .ok ⟨r.1, r.2, corrected⟩
    | some _ => .error "AttributeError: get"

/-- Source: `utils/code_analyzer.py`, `parse_llm_response`.  The entry point
receives whatever `call_llm` returned; a falsy non-string short-circuits to
the default, a truthy non-string raises on `.strip()`. -/
def parse_llm_response (v : Json) : Except String ParseResult :=
  match v with
  | .str s => parseLLMString s
  | v => if pyTruthy v then .error "AttributeError: strip" else .ok defaultResult

/-- The numeric value of a Python number (`int`, `float`, or `bool`, since
`bool` is an `int` subclass) as an exact decimal `(m, e)` standing for
`m / 10 ^ e`, if the value is numeric. -/
def jsonNumDec : Json → Option (Int × Nat)
  | .int n => some (n, 0)
  | .float m e => some (m, e)
  | .bool b => some (if b then (1, 0) else (0, 0))
  | _ => none

/-- The rational value of a decimal pair (specification-level only). -/
def decVal (d : Int × Nat) : ℚ := (d.1 : ℚ) / (10 : ℚ) ^ d.2

/-- Strict order on decimal values, by cross-multiplication (equivalent to
comparing `decVal`; see `decLtB_iff`). -/
def decLtB (a b : Int × Nat) : Bool := a.1 * (10 : Int) ^ b.2 < b.1 * (10 : Int) ^ a.2

/-- Equality of decimal values, by cross-multiplication. -/
def decEqB (a b : Int × Nat) : Bool := a.1 * (10 : Int) ^ b.2 == b.1 * (10 : Int) ^ a.2

/-- Python `==` on JSON-derived values: numeric values compare by value
across `int`/`float`/`bool`; other comparisons are structural (a slight
simplification for nested mixed-type containers). -/
def pyEqB (a b : Json) : Bool :=
  match jsonNumDec a, jsonNumDec b with
  | some x, some y => decEqB x y
  | _, _ => jsonBeq a b

/-- Python `<` on strings: lexicographic by code point. -/
def strLtPy : Str → Str → Bool
  | [], [] => false
  | [], _ :: _ => true
  | _ :: _, [] => false
  | c :: cs, d :: ds => c < d || (c == d && strLtPy cs ds)

mutual

/-- Fuelled Python `<` on JSON-derived values: numbers compare by value,
strings lexicographically, lists elementwise; any other combination raises
`TypeError`.  (`pyLt` supplies ample fuel; nesting depth is bounded by the
value's size.) -/
def pyLtFuel : Nat → Json → Json → Except String Bool
  | 0, _, _ => .error "RecursionError"
  | fuel + 1, a, b =>
    match jsonNumDec a, jsonNumDec b with
    | some x, some y => .ok (decLtB x y)
    | _, _ =>
      match a, b with
      | .str s, .str t => .ok (strLtPy s t)
      | .arr l, .arr m => pyLtListFuel fuel l m
      | _, _ => .error "TypeError: unorderable types"

/-- Elementwise Python `<` on lists: the first non-equal pair decides; a
proper prefix is smaller. -/
def pyLtListFuel : Nat → List Json → List Json → Except String Bool
  | 0, _, _ => .error "RecursionError"
  | _ + 1, [], [] => .ok false
  | _ + 1, [], _ :: _ => .ok true
  | _ + 1, _ :: _, [] => .ok false
  | fuel + 1, x :: xs, y :: ys =>
    if pyEqB x y then pyLtListFuel fuel xs ys else pyLtFuel fuel x y

end

mutual

/-- Node count of a JSON value (fuel bound for `pyLt`). -/
def jsonSize : Json → Nat
  | .arr l => jsonSizeList l + 1
  | .obj f => jsonSizeFields f + 1
  | _ => 1

/-- Total node count of a list of JSON values, counting the spine. -/
def jsonSizeList : List Json → Nat
  | [] => 0
  | x :: xs => jsonSize x + jsonSizeList xs + 1

/-- Total node count of an object field list, counting the spine. -/
def jsonSizeFields : List (Str × Json) → Nat
  | [] => 0
  | (_, v) :: xs => jsonSize v + jsonSizeFields xs + 1

end

/-- Python `<` on JSON-derived values.  The fuel `jsonSize a + 1` dominates
the recursion depth of the elementwise list comparison. -/
def pyLt (a b : Json) : Except String Bool := pyLtFuel (jsonSize a + 1) a b

/-- Insert one keyed element into an already-sorted (descending, stable) list:
the element stays after exactly those earlier elements whose key is strictly
greater.  Key comparisons may raise, as Python `sorted` does on unorderable
keys. -/
def insertDesc (x : Json × Json) : List (Json × Json) → Except String (List (Json × Json))
  | [] => .ok [x]
  | y :: ys => do
    let lt ← pyLt x.1 y.1
    if lt then do
      let rest ← insertDesc x ys
      .ok (y :: rest)
    else .ok (x :: y :: ys)

/-- Model of `sorted(rag_results, key=lambda x: x.get("score", 0),
reverse=True)` on elements already paired with their keys: a stable insertion
sort, descending by key.  It raises exactly when the keys mix unorderable
types, as CPython's sort does. -/
def sortDescM : List (Json × Json) → Except String (List (Json × Json))
  | [] => .ok []
  | x :: xs => do
    let s ← sortDescM xs
    insertDesc x s

/-- Round the decimal value `n / 10 ^ e` to the nearest integer, ties to
even, as Python float formatting does. -/
def roundHalfEven (n : Int) (e : Nat) : Int :=
  let d : Int := (10 : Int) ^ e
  let f := Int.fdiv n d
  let r := n - f * d
  if 2 * r < d then f else if d < 2 * r then f + 1 else if f % 2 = 0 then f else f + 1

/-- Python `f"{x:.3f}"` for a numeric value, on the exact decimal model
`m / 10 ^ e` of the value (the sign of a negative zero result is not
reproduced). -/
def fmt3 (m : Int) (e : Nat) : Str :=
  let v := roundHalfEven (m * 1000) e
  let sign : Str := if v < 0 then ['-'] else []
  let a := v.natAbs
  let fs := natDigits (a % 1000)
  sign ++ natDigits (a / 1000) ++ '.' :: (List.replicate (3 - fs.length) '0' ++ fs)

/-- Python `f"{score:.3f}"` on a JSON-derived score: formats numbers
(`bool` included, as an `int` subclass), raises `ValueError` on strings and
`TypeError` on other values. -/
def pyFormatScore : Json → Except String Str
  | .int n => .ok (fmt3 n 0)
  | .float m e => .ok (fmt3 m e)
  | .bool b => .ok (fmt3 (if b then 1 else 0) 0)
  | .str _ => .error "ValueError: Unknown format code f"
  | _ => .error "TypeError: unsupported format string"

/-- Python `doc.get(k, dflt)` on an arbitrary value: raises `AttributeError`
unless the value is a dict. -/
def pyGetM (doc : Json) (k : Str) (dflt : Json) : Except String Json :=
  match doc with
  | .obj fields => .ok (pyDictGet fields k dflt)
  | _ => .error "AttributeError: get"

/-- The loop body of `format_rag_docs`: for each (key, doc) pair of the
sorted, truncated list, in order and with its 1-based position, skip the doc
if its stripped text is empty, else render its numbered block. -/
def ragParts : List (Json × Json) → Nat → Except String (List Str)
  | [], _ => .ok []
  | (score, doc) :: rest, i => do
    let tRaw ← pyGetM doc ("text").data (.str [])
    let text ←
      match tRaw with
      | .str s => .ok (pyStrip s)
      | _ => .error "AttributeError: strip"
    if text = [] then ragParts rest (i + 1)
    else do
      let sc ← pyFormatScore score
      let tail ← ragParts rest (i + 1)
      .ok ((("[Doc ").data ++ natDigits i ++ (" (relevance: ").data ++ sc ++ (")]:\n").data ++ text) :: tail)

/-- Source: `utils/code_analyzer.py`, `format_rag_docs`.  Sort the retrieval
hits by score descending (stable), keep the first `max_docs`, drop hits whose
stripped text is empty, and render the survivors as numbered blocks joined by
blank lines; the empty input list yields the empty string.  Score lookups,
comparisons and formatting can raise, exactly as in the source. -/
def format_rag_docs (rag_results : List Json) (max_docs : Nat := 5) : Except String Str :=
  if rag_results.isEmpty then .ok []
  else do
    let keyed ← rag_results.mapM (fun d => do
      let k ← pyGetM d ("score").data (.int 0)
      pure (k, d))
    let sorted_docs ← sortDescM keyed
    let top_docs := sorted_docs.take max_docs
    let parts ← ragParts top_docs 1
    .ok (List.intercalate ['\n', '\n'] parts)

/-- Source: `utils/cpp_checker.py`, `check_code_snippet`, with the cppcheck
subprocess as an explicit outcome (`.ok` carries the stderr text, `.error` the
exception the subprocess call raised).  An exception is caught and reported as
the string `"Error running cppcheck: ..."`; otherwise the stderr lines are
filtered (non-blank, not starting with `"Checking"`), the temp-file path is
removed, and the cleaned lines are rejoined. -/
def check_code_snippet (tempPath : Str) (sub : Except Str Str) : Str :=
  match sub with
  | .error e => ("Error running cppcheck: ").data ++ e
  | .ok stderrText =>
    let output := pyStrip stderrText
    let findings := ((splitNl output).filter
        (fun line => pyStrip line ≠ [] ∧ ¬ strStartsWith line ("Checking").data)).map
      (fun line => pyStrip (replaceDrop line tempPath))
    if findings = [] then [] else List.intercalate ['\n'] findings

/-- Python `len()` on a JSON-derived value. -/
def pyLenM : Json → Except String Nat
  | .arr l => .ok l.length
  | .str s => .ok s.length
  | .obj f => .ok f.length
  | _ => .error "TypeError: has no len"

/-- Python `"choices" in data`: key membership for dicts, element membership
for lists, substring test for strings; other values raise `TypeError`. -/
def pyContainsM (container : Json) (key : Str) : Except String Bool :=
  match container with
  | .obj fields => .ok (fields.any (fun p => p.1 == key))
  | .arr l => .ok (l.any (fun v => pyEqB v (.str key)))
  | .str s => .ok (strContainsSub s key)
  | _ => .error "TypeError: not a container"

/-- Python `container[key]` with a string key: dict lookup (`KeyError` when
absent); lists and strings reject string indices with `TypeError`. -/
def pySubscriptKey (container : Json) (key : Str) : Except String Json :=
  match container with
  | .obj fields =>
    match jsonLookup fields key with
    | some v => .ok v
    | none => .error "KeyError"
  | .arr _ => .error "TypeError: list indices must be integers"
  | .str _ => .error "TypeError: string indices must be integers"
  | _ => .error "TypeError: not subscriptable"

/-- Python `container[0]`: first element of a list, first character of a
string (as a 1-character string); a dict looks the integer up as a key, which
for JSON-derived dicts (string keys only) is a `KeyError`. -/
def pySubscriptZero (container : Json) : Except String Json :=
  match container with
  | .arr (x :: _) => .ok x
  | .arr [] => .error "IndexError"
  | .str (c :: _) => .ok (.str [c])
  | .str [] => .error "IndexError"
  | .obj _ => .error "KeyError: 0"
  | _ => .error "TypeError: not subscriptable"

/-- The HTTP response the chat-completion endpoint produced: its status code
and the result of `resp.json()` (`.error` models a body that is not valid
JSON, which makes `resp.json()` raise). -/
structure HttpResponse where
  status : Nat
  body : Except String Json

/-- Source: `bug_agent.py`, `BugHunterAgent.call_llm`, with the HTTP exchange
as an explicit response value.  `raise_for_status` raises on any non-2xx
status; a dict body with a non-empty `"choices"` entry yields
`choices[0]["message"]["content"]`; otherwise a non-empty list body yields
`data[0].get("generated_text", str(data[0]))`; any other body raises
`RuntimeError` with the truncated `json.dumps` of the body. -/
def call_llm (resp : HttpResponse) : Except String Json :=
  if resp.status < 200 ∨ 300 ≤ resp.status then
    .error ("HTTPStatusError: " ++ Nat.repr resp.status)
  else do
    let data ← resp.body
    let hasChoices ← pyContainsM data ("choices").data
    let fromChoices ←
      if hasChoices then do
        let choices ← pySubscriptKey data ("choices").data
        let n ← pyLenM choices
        if 0 < n then do
          let first ← pySubscriptZero choices
          let msg ← pySubscriptKey first ("message").data
          let content ← pySubscriptKey msg ("content").data
          pure (some content)
        else pure none
      else pure none
    match fromChoices with
    | some content => .ok content
    | none =>
      match data with
      | .arr (first :: _) =>
        match first with
        | .obj fields => .ok (pyDictGet fields ("generated_text").data (.str (pyStrOfJson first)))
        | _ => .error "AttributeError: get"
      | _ =>
        .error ("RuntimeError: Unexpected HF API response format: "
          ++ String.mk ((pyDumps data).take 200))

/-- Source: `bug_agent.py`, `BugHunterAgent.search_docs`, with the MCP call
and content decoding abstracted to its outcome: the method catches every
exception and returns `[]`, and also returns `[]` whenever the decoded
payload is not a list, so only a successfully decoded list comes through. -/
def search_docs (outcome : Except String (List Json)) : List Json :=
  match outcome with
  | .ok docs => docs
  | .error _ => []

/-- The behaviours of the three collaborators one `analyze_entry` call
depends on: the retrieval call (already absorbed by `search_docs`), the
static-analysis step (the value returned by `check_code_snippet`, or an
exception escaping it, e.g. from the temp-file handling), and the HTTP
exchange of `call_llm` (`.error` models `httpx` raising before a response
exists). -/
structure StepOutcomes where
  searchOutcome : Except String (List Json)
  staticOutcome : Except String Str
  llmHttp : Except String HttpResponse

/-- The record `analyze_entry` returns: the five keys of the result dict. -/
structure AgentRecord where
  id : Str
  bugLine : Str
  explanation : Str
  correctedCode : Json
  ragDocs : List Json

/-- The body of the `try` block of `analyze_entry` (source: `bug_agent.py`,
lines 98-139): retrieval, evidence formatting, static analysis, line
numbering, prompt building, model call, response normalization, and record
assembly. -/
def analyzeCore (entry_id code context : Str) (st : StepOutcomes) :
    Except String AgentRecord := do
  let rag_results := search_docs st.searchOutcome
  let rag_text ← format_rag_docs rag_results 5
  let static_errors ← st.staticOutcome
  let numbered_code := add_line_numbers code
  let _prompt := build_analysis_prompt numbered_code context rag_text static_errors
  let response ← do
    let resp ← st.llmHttp
    call_llm resp
  let result ← parse_llm_response response
  .ok
    { id := entry_id
      bugLine :=
        if result.bug_lines ≠ [] then List.intercalate [','] result.bug_lines else []
      explanation :=
        if result.explanations ≠ [] then List.intercalate ['\x3b', ' '] result.explanations
        else ("No bugs detected").data
      correctedCode := result.corrected_code
      ragDocs := rag_results }

/-- Source: `bug_agent.py`, `BugHunterAgent.analyze_entry`.  Any exception in
the body is caught and converted into a record with the entry id, empty bug
line, an `"Error: ..."` explanation, empty corrected code and no docs. -/
def analyze_entry (entry_id code context : Str) (st : StepOutcomes) : AgentRecord :=
  match analyzeCore entry_id code context st with
  | .ok r => r
  | .error e =>
    { id := entry_id
      bugLine := []
      explanation := ("Error: ").data ++ e.data
      correctedCode := .str []
      ragDocs := [] }

/-- The fallback parser produces bug lines and explanations pairwise, so the
two lists always have equal length. -/
theorem fallbackParse_length (s : Str) :
    (fallbackParse s).bug_lines.length = (fallbackParse s).explanations.length := by
  simp [fallbackParse]

/-- Reconciliation always equalises the two list lengths. -/
theorem reconcile_length (bs es : List Str) :
    (reconcile bs es).1.length = (reconcile bs es).2.length := by
  simp only [reconcile, List.length_append, List.length_replicate]
  omega

/-- Any record the string-reply normalizer returns has equally long bug-line
and explanation lists. -/
theorem parseLLMString_length (s : Str) (r : ParseResult)
    (h : parseLLMString s = .ok r) :
    r.bug_lines.length = r.explanations.length := by
  unfold parseLLMString at h
  split at h
  · simp only [Except.ok.injEq] at h
    subst h; rfl
  · split at h
    · simp only [Except.ok.injEq] at h
      subst h; exact fallbackParse_length s
    · rename_i fields heq
      simp only [bind, Except.bind] at h
      rcases hbl : pyIterToStrs (pyDictGet fields (("bug_lines").data) (.arr [])) with e | bl
      all_goals rw [hbl] at h
      · exact absurd h (by simp)
      rcases hex : pyIterTrunc (pyDictGet fields (("explanations").data) (.arr [])) with e | ex
      all_goals rw [hex] at h
      · exact absurd h (by simp)
      simp only [Except.ok.injEq] at h
      subst h
      exact reconcile_length bl ex
    · exact absurd h (by simp)

/-- C1.  For every raw model reply given to the Response Normalizer
(`parse_llm_response`), any returned record satisfies
`len(bug_lines) == len(explanations)`: on the strict structured-parsing path
(where the two `while` loops reconcile the lengths), on the heuristic
fallback path (where the pairs are produced together), and for the empty
default. -/
theorem C1_length_invariant (v : Json) (r : ParseResult)
    (h : parse_llm_response v = .ok r) :
    r.bug_lines.length = r.explanations.length := by
  cases v
  case str s => exact parseLLMString_length s r h
  all_goals
    simp only [parse_llm_response] at h
  all_goals
    split at h
  all_goals
    first
    | (simp only [Except.ok.injEq] at h; subst h; rfl)
    | exact absurd h (by simp)

/-- Witness for C1 at a concrete mismatched-length reply. -/
theorem C1_length_invariant_witness :
    (⟨[['1'], ['2']], [("only one").data, ("Bug detected").data], .str []⟩ : ParseResult).bug_lines.length =
    (⟨[['1'], ['2']], [("only one").data, ("Bug detected").data], .str []⟩ : ParseResult).explanations.length :=
  C1_length_invariant
    (.str ("\x7b\"bug_lines\":[1,2],\"explanations\":[\"only one\"]\x7d").data) _ rfl

/-- C2.  For every entry and any collaborator behaviour, when any step of the
Orchestrator body fails, `analyze_entry` returns (rather than propagates) a
record with the entry id, an empty bug-line field, an empty corrected-code
field, no docs, and an explanation beginning with `"Error:"` that carries the
failure message. -/
theorem C2_error_capture (entry_id code context : Str) (st : StepOutcomes)
    (e : String) (h : analyzeCore entry_id code context st = .error e) :
    analyze_entry entry_id code context st =
      ⟨entry_id, [], ("Error: ").data ++ e.data, .str [], []⟩ ∧
    strStartsWith (analyze_entry entry_id code context st).explanation (("Error:").data) = true := by
  have h2 : analyze_entry entry_id code context st =
      ⟨entry_id, [], ("Error: ").data ++ e.data, .str [], []⟩ := by
    unfold analyze_entry
    rw [h]
  refine ⟨h2, ?_⟩
  rw [h2]
  show strStartsWith (("Error: ").data ++ e.data) (("Error:").data) = true
  unfold strStartsWith
  rw [List.take_append_eq_append_take]
  norm_num

/-- Witness for C2 with a failing model call. -/
theorem C2_error_capture_witness :
    analyze_entry (("ID7").data) (("int x;").data) (("ctx").data)
        ⟨.error "mcp down", .ok [], .error "timeout"⟩ =
      ⟨("ID7").data, [], ("Error: ").data ++ ("timeout" : String).data, .str [], []⟩ :=
  (C2_error_capture (("ID7").data) (("int x;").data) (("ctx").data)
    ⟨.error "mcp down", .ok [], .error "timeout"⟩ "timeout" rfl).1

/-- C4 counterexample.  The claim covers every non-blank reply in which no
structured JSON *object* can be extracted and strictly parsed ("no object
found, or malformed") and says the result equals the fallback parse of the
raw reply.  For the brace-free reply `"[1, 2]"` no object is found, yet
`json.loads` succeeds with a list, and `data.get("bug_lines", [])` raises
`AttributeError` — the normalizer neither consults the fallback parser nor
returns its result. -/
theorem C4_counterexample :
    parse_llm_response (.str (("[1, 2]").data)) = .error "AttributeError: get" ∧
    ¬ parse_llm_response (.str (("[1, 2]").data)) =
        .ok (fallbackParse (("[1, 2]").data)) := by
  refine ⟨rfl, ?_⟩
  intro h
  exact Except.noConfusion
    ((rfl : parse_llm_response (.str (("[1, 2]").data)) =
        .error "AttributeError: get").symm.trans h)

/-- C4 amended.  The fallback is taken exactly when strict parsing of the
extracted candidate raises `JSONDecodeError` (malformed, or no parseable
JSON at all): then the Response Normalizer returns exactly the heuristic
fallback parse of the original raw reply (not the candidate), and in
particular the prose reply `"Line 5: wrong pin name D0 vs DO"` yields bug
line `"5"` with explanation `"wrong pin name D0 vs DO"`.  But when no object
is found and the candidate parses as valid non-dict JSON (a bare list,
number, string, boolean or null reply), the normalizer does not fall back:
`data.get` raises `AttributeError`, which only the Orchestrator catches. -/
theorem C4_fallback_on_unparsed :
    (∀ s : Str, ¬ pyStrip s = [] → jsonLoads (extractCandidate s) = none →
        parse_llm_response (.str s) = .ok (fallbackParse s)) ∧
    (∀ (s : Str) (j : Json), ¬ pyStrip s = [] →
        jsonLoads (extractCandidate s) = some j →
        (∀ fields, ¬ j = Json.obj fields) →
        parse_llm_response (.str s) = .error "AttributeError: get") ∧
    parse_llm_response (.str (("Line 5: wrong pin name D0 vs DO").data)) =
      .ok ⟨[['5']], [("wrong pin name D0 vs DO").data], .str []⟩ := by
  refine ⟨?_, ?_, rfl⟩
  · intro s h1 h2
    show parseLLMString s = .ok (fallbackParse s)
    unfold parseLLMString
    rw [if_neg h1, h2]
  · intro s j h1 h2 h3
    show parseLLMString s = .error "AttributeError: get"
    unfold parseLLMString
    rw [if_neg h1, h2]
    cases j
    case obj fields => exact absurd rfl (h3 fields)
    all_goals rfl

/-- Witness for C4 at a concrete non-JSON reply. -/
theorem C4_fallback_on_unparsed_witness :
    parse_llm_response (.str (("no structured reply here").data)) =
      .ok (fallbackParse (("no structured reply here").data)) :=
  C4_fallback_on_unparsed.1 _ (by decide) rfl

/-- C5.  On the strict path, mismatched list lengths are reconciled without
discarding entries: short explanations are padded with the literal
`"Bug detected"`, short bug-line lists with the empty string; in particular
`bug_lines [1,2]` with `explanations ["only one"]` yields explanations
`["only one", "Bug detected"]`. -/
theorem C5_reconciliation :
    (∀ bs es : List Str, es.length < bs.length →
        reconcile bs es =
          (bs, es ++ List.replicate (bs.length - es.length) (("Bug detected").data))) ∧
    (∀ bs es : List Str, bs.length < es.length →
        reconcile bs es = (bs ++ List.replicate (es.length - bs.length) [], es)) ∧
    parse_llm_response (.str ("\x7b\"bug_lines\":[1,2],\"explanations\":[\"only one\"]\x7d").data) =
      .ok ⟨[['1'], ['2']], [("only one").data, ("Bug detected").data], .str []⟩ := by
  refine ⟨?_, ?_, rfl⟩
  · intro bs es h
    have h1 : max bs.length es.length = bs.length := by omega
    simp only [reconcile, h1, Nat.sub_self, List.replicate_zero, List.append_nil]
  · intro bs es h
    have h1 : max bs.length es.length = es.length := by omega
    simp only [reconcile, h1, Nat.sub_self, List.replicate_zero, List.append_nil]

/-- Witness for C5 at concrete mismatched lists. -/
theorem C5_reconciliation_witness :
    reconcile [['1'], ['2']] [("only one").data] =
      ([['1'], ['2']], [("only one").data] ++ List.replicate 1 (("Bug detected").data)) :=
  C5_reconciliation.1 [['1'], ['2']] [("only one").data] (by decide)

/-- Every word produced by `pyWordsAux` (on a whitespace-free accumulator) is
non-empty and whitespace-free. -/
theorem pyWordsAux_spec (s : Str) : ∀ acc : Str, (∀ c ∈ acc, pyIsSpace c = false) →
    ∀ w ∈ pyWordsAux s acc, w ≠ [] ∧ ∀ c ∈ w, pyIsSpace c = false := by
  induction s with
  | nil =>
    intro acc hacc w hw
    unfold pyWordsAux at hw
    split at hw
    · simp at hw
    · rename_i hne
      simp only [List.mem_singleton] at hw
      subst hw
      refine ⟨by simpa using hne, ?_⟩
      intro c hc
      exact hacc c (by simpa using hc)
  | cons c s ih =>
    intro acc hacc w hw
    unfold pyWordsAux at hw
    by_cases hc : pyIsSpace c = true
    · rw [if_pos hc] at hw
      split at hw
      · exact ih [] (by simp) w hw
      · rename_i hne
        simp only [List.mem_cons] at hw
        rcases hw with rfl | hw
        · refine ⟨by simpa using hne, ?_⟩
          intro d hd
          exact hacc d (by simpa using hd)
        · exact ih [] (by simp) w hw
    · rw [if_neg hc] at hw
      rw [Bool.not_eq_true] at hc
      refine ih (c :: acc) ?_ w hw
      intro d hd
      rcases List.mem_cons.mp hd with rfl | hd
      · exact hc
      · exact hacc d hd

/-- Every word of `pyWords s` is non-empty and whitespace-free. -/
theorem pyWords_spec (s : Str) :
    ∀ w ∈ pyWords s, w ≠ [] ∧ ∀ c ∈ w, pyIsSpace c = false :=
  pyWordsAux_spec s [] (by simp)

/-- Splitting consumes a whitespace-free block as one growing accumulator. -/
theorem pyWordsAux_block_step (w : Str) : ∀ (s acc : Str),
    (∀ c ∈ w, pyIsSpace c = false) →
    pyWordsAux (w ++ s) acc = pyWordsAux s (w.reverse ++ acc) := by
  induction w with
  | nil => intro s acc _; simp
  | cons c w ih =>
    intro s acc hw
    have hc : pyIsSpace c = false := hw c (List.mem_cons_self c w)
    simp only [List.cons_append, pyWordsAux, hc, Bool.false_eq_true, if_false,
      List.append_eq]
    rw [ih s (c :: acc) (fun d hd => hw d (List.mem_cons_of_mem c hd))]
    rw [List.reverse_cons, List.append_assoc]
    rfl

/-- Rejoining non-empty whitespace-free words with single spaces and
splitting again recovers exactly the words. -/
theorem pyWords_intercalate (ws : List Str)
    (h : ∀ w ∈ ws, w ≠ [] ∧ ∀ c ∈ w, pyIsSpace c = false) :
    pyWords (List.intercalate [' '] ws) = ws := by
  induction ws with
  | nil => rfl
  | cons w ws ih =>
    have hw := h w (List.mem_cons_self w ws)
    cases ws with
    | nil =>
      have hic : List.intercalate [' '] [w] = w := by
        simp [List.intercalate]
      rw [hic]
      show pyWordsAux w [] = [w]
      have := pyWordsAux_block_step w [] [] hw.2
      rw [List.append_nil] at this
      rw [this]
      unfold pyWordsAux
      rw [List.append_nil, if_neg (by simpa using hw.1)]
      simp
    | cons w2 ws2 =>
      have hic : List.intercalate [' '] (w :: w2 :: ws2) =
          w ++ ' ' :: List.intercalate [' '] (w2 :: ws2) := by
        simp [List.intercalate, List.intersperse, List.flatten]
      rw [hic]
      show pyWordsAux (w ++ ' ' :: List.intercalate [' '] (w2 :: ws2)) [] = _
      rw [pyWordsAux_block_step w _ [] hw.2]
      show pyWordsAux (' ' :: List.intercalate [' '] (w2 :: ws2)) _ = _
      unfold pyWordsAux
      rw [if_pos (by decide)]
      rw [List.append_nil, if_neg (by simpa using hw.1)]
      rw [List.reverse_reverse]
      rw [show pyWordsAux (List.intercalate [' '] (w2 :: ws2)) [] = w2 :: ws2 from
        ih (fun u hu => h u (List.mem_cons_of_mem w hu))]

/-- `_truncate` leaves at most `m` whitespace-separated words, never cutting
inside a word. -/
theorem pyTruncate_words_le (s : Str) (m : Nat) :
    (pyWords (pyTruncate s m)).length ≤ m := by
  simp only [pyTruncate]
  split
  · assumption
  · rw [pyWords_intercalate]
    · rename_i hgt
      simp only [List.length_take]
      omega
    · intro w hw
      exact pyWords_spec s w (List.take_subset m (pyWords s) hw)

/-- Every string the explanation-truncation map returns is the result of
`pyTruncate _ 15`. -/
theorem truncStrs_mem (items : List Json) : ∀ (l : List Str),
    truncStrs items = .ok l → ∀ e ∈ l, ∃ s0, e = pyTruncate s0 15 := by
  induction items with
  | nil =>
    intro l h e he
    simp only [truncStrs, Except.ok.injEq] at h
    subst h
    simp at he
  | cons x xs ih =>
    intro l h e he
    cases x
    case str s =>
      simp only [truncStrs] at h
      rcases ht : truncStrs xs with er | tail
      all_goals rw [ht] at h
      · exact absurd h (by simp [bind, Except.bind])
      · simp only [bind, Except.bind, Except.ok.injEq] at h
        subst h
        rcases List.mem_cons.mp he with rfl | he2
        · exact ⟨s, rfl⟩
        · exact ih tail ht e he2
    all_goals simp [truncStrs] at h

/-- Every string `pyIterTrunc` returns is the result of `pyTruncate _ 15`. -/
theorem pyIterTrunc_mem (v : Json) (l : List Str) (h : pyIterTrunc v = .ok l) :
    ∀ e ∈ l, ∃ s0, e = pyTruncate s0 15 := by
  cases v
  case arr items => exact truncStrs_mem items l h
  case str s =>
    simp only [pyIterTrunc, Except.ok.injEq] at h
    subst h
    intro e he
    simp only [List.mem_map] at he
    obtain ⟨c, _, rfl⟩ := he
    exact ⟨[c], rfl⟩
  case obj f =>
    simp only [pyIterTrunc, Except.ok.injEq] at h
    subst h
    intro e he
    simp only [List.mem_map] at he
    obtain ⟨p, _, rfl⟩ := he
    exact ⟨p.1, rfl⟩
  all_goals simp [pyIterTrunc] at h

/-- C3 counterexample.  The claim says the 15-word truncation is applied
after either parsing path; on the heuristic fallback path it is not: the
prose reply `"Line 5: w … w"` (16 single-letter words after the colon) is
returned with a 16-word explanation. -/
theorem C3_counterexample :
    (parse_llm_response (.str ("Line 5: w w w w w w w w w w w w w w w w").data)).map
      (fun r => r.explanations.map (fun e => (pyWords e).length)) = .ok [16] := rfl

/-- C3 amended.  On the strict structured-parsing path (the extracted
candidate parses as JSON), every explanation of a returned record has at most
15 whitespace-separated words: parsed explanations pass through `_truncate`
(split on whitespace, first 15 words rejoined with single spaces, never
cutting mid-word), and padding entries are the 2-word literal
`"Bug detected"`.  The heuristic fallback path returns explanations
untruncated (only stripped), as the counterexample shows. -/
theorem C3_strict_truncation (s : Str) (j : Json) (r : ParseResult)
    (h1 : jsonLoads (extractCandidate s) = some j)
    (h2 : parse_llm_response (.str s) = .ok r) :
    ∀ e ∈ r.explanations, (pyWords e).length ≤ 15 := by
  have h2s : parseLLMString s = .ok r := h2
  unfold parseLLMString at h2s
  split at h2s
  · simp only [Except.ok.injEq] at h2s
    subst h2s
    intro e he
    simp [defaultResult] at he
  · rw [h1] at h2s
    cases j
    case obj fields =>
      simp only [bind, Except.bind] at h2s
      rcases hbl : pyIterToStrs (pyDictGet fields (("bug_lines").data) (.arr [])) with er | bl
      all_goals rw [hbl] at h2s
      · exact absurd h2s (by simp)
      rcases hex : pyIterTrunc (pyDictGet fields (("explanations").data) (.arr [])) with er | ex
      all_goals rw [hex] at h2s
      · exact absurd h2s (by simp)
      simp only [Except.ok.injEq] at h2s
      subst h2s
      intro e he
      rcases List.mem_append.mp he with he2 | he2
      · obtain ⟨s0, rfl⟩ := pyIterTrunc_mem _ ex hex e he2
        exact pyTruncate_words_le s0 15
      · rw [List.eq_of_mem_replicate he2]
        decide
    all_goals exact absurd h2s (by simp)

/-- Witness for the amended C3 at a concrete strict-path reply. -/
theorem C3_strict_truncation_witness :
    (pyWords (("one two three").data)).length ≤ 15 :=
  C3_strict_truncation ("\x7b\"bug_lines\":[1],\"explanations\":[\"one two three\"]\x7d").data
    (.obj [((("bug_lines").data), .arr [.int 1]),
           ((("explanations").data), .arr [.str (("one two three").data)])])
    ⟨[['1']], [("one two three").data], .str []⟩ rfl rfl
    (("one two three").data) (by decide)

/-- C6 counterexample.  The claim says the Model Invoker fails for *every*
payload lacking the expected `"choices"` shape; but the source has a fallback
branch: for the 2xx payload `[{"generated_text": "hi"}]` (no `"choices"`
anywhere) `call_llm` returns the text `"hi"` instead of failing. -/
theorem C6_counterexample :
    call_llm ⟨200, .ok (.arr [.obj [(("generated_text").data, .str (("hi").data))]])⟩ =
      .ok (.str (("hi").data)) := rfl

/-- C6 amended.  A non-2xx status fails with the HTTP status error carrying
the status code (the response body being available on the carried response,
not in the message).  A 2xx payload with no `"choices"` fails with
`RuntimeError` carrying the truncated `json.dumps` of the payload — *unless*
the payload is a non-empty JSON array (and does not contain the string
`"choices"` as an element): then the first element's `"generated_text"`
(default `str(first)`) is returned when the element is a dict, and
`AttributeError` is raised when it is not. -/
theorem C6_amended :
    (∀ (st : Nat) (body : Except String Json), st < 200 ∨ 300 ≤ st →
        call_llm ⟨st, body⟩ = .error ("HTTPStatusError: " ++ Nat.repr st)) ∧
    (∀ fields : List (Str × Json),
        (fields.any (fun p => p.1 == ("choices").data)) = false →
        call_llm ⟨200, .ok (.obj fields)⟩ =
          .error ("RuntimeError: Unexpected HF API response format: "
            ++ String.mk ((pyDumps (.obj fields)).take 200))) ∧
    (∀ (f : List (Str × Json)) (rest : List Json),
        ((Json.obj f :: rest).any (fun v => pyEqB v (.str (("choices").data)))) = false →
        call_llm ⟨200, .ok (.arr (.obj f :: rest))⟩ =
          .ok (pyDictGet f (("generated_text").data) (.str (pyStrOfJson (.obj f))))) ∧
    (∀ (n : Int) (rest : List Json),
        ((Json.int n :: rest).any (fun v => pyEqB v (.str (("choices").data)))) = false →
        call_llm ⟨200, .ok (.arr (.int n :: rest))⟩ = .error "AttributeError: get") := by
  refine ⟨?_, ?_, ?_, ?_⟩
  · intro st body h
    unfold call_llm
    rw [if_pos h]
  · intro fields h
    unfold call_llm
    rw [if_neg (by simp)]
    simp [bind, Except.bind, pyContainsM, h, pure, Except.pure]
  · intro f rest h
    unfold call_llm
    rw [if_neg (by simp)]
    simp [bind, Except.bind, pyContainsM, h, pure, Except.pure]
  · intro n rest h
    unfold call_llm
    rw [if_neg (by simp)]
    simp [bind, Except.bind, pyContainsM, h, pure, Except.pure]

/-- Witness for the amended C6 at a concrete non-2xx response. -/
theorem C6_amended_witness :
    call_llm ⟨404, .ok .null⟩ = .error ("HTTPStatusError: " ++ Nat.repr 404) :=
  C6_amended.1 404 (.ok .null) (by omega)

/-- C8 counterexample.  The claim says malformed (non-numeric) scores are
coerced to 0 and the Evidence Formatter never raises; but the source's
`x.get("score", 0)` only defaults *absent* scores, and sorting a string score
against a numeric one raises `TypeError`. -/
theorem C8_counterexample :
    format_rag_docs
      [.obj [(("text").data, .str (("A").data)), (("score").data, .str (("high").data))],
       .obj [(("text").data, .str (("B").data)), (("score").data, .float 5 1)]] 5 =
      .error "TypeError: unorderable types" := rfl

/-- C8 amended.  Only an *absent* score is defaulted to 0 (and then formats
as `0.000`); a malformed non-numeric score is not coerced: it raises
`TypeError` when compared against a differently-typed score during sorting,
or `ValueError` when formatted into the rendered block. -/
theorem C8_amended :
    (∀ fields : List (Str × Json),
        (fields.any (fun p => p.1 == ("score").data)) = false →
        pyGetM (.obj fields) (("score").data) (.int 0) = .ok (.int 0)) ∧
    format_rag_docs [.obj [(("text").data, .str (("A").data))]] 5 =
      .ok (("[Doc 1 (relevance: 0.000)]:\nA").data) ∧
    format_rag_docs
        [.obj [(("text").data, .str (("A").data)), (("score").data, .str (("high").data))]] 5 =
      .error "ValueError: Unknown format code f" := by
  refine ⟨?_, rfl, rfl⟩
  intro fields h
  simp only [pyGetM, pyDictGet, jsonLookup]
  rw [List.find?_eq_none.mpr]
  · rfl
  · intro p hp
    have := (List.any_eq_false.mp h) p (List.mem_reverse.mp hp)
    simpa using this

/-- Witness for the amended C8: an absent score defaults to 0. -/
theorem C8_amended_witness :
    pyGetM (.obj [(("text").data, .str (("A").data))]) (("score").data) (.int 0) =
      .ok (.int 0) :=
  C8_amended.1 [(("text").data, .str (("A").data))] (by decide)

/-- Stripping a string that starts with a non-whitespace character yields a
non-empty string. -/
theorem pyStrip_cons_ne_nil (c : Char) (rest : Str) (hc : pyIsSpace c = false) :
    pyStrip (c :: rest) ≠ [] := by
  unfold pyStrip
  rw [List.dropWhile_cons]
  simp only [hc, Bool.false_eq_true, if_false]
  intro h
  rw [List.reverse_eq_nil_iff, List.dropWhile_eq_nil_iff] at h
  have := h c (by simp)
  rw [hc] at this
  exact Bool.false_ne_true this

/-- C9 counterexample.  The claim says a static-analysis failure degrades to
"no findings" (empty findings text); but when the cppcheck subprocess raises,
`check_code_snippet` returns the non-empty diagnostic string
`"Error running cppcheck: <e>"`. -/
theorem C9_counterexample :
    check_code_snippet (("/tmp/snippet.cpp").data) (.error (("boom").data)) =
      ("Error running cppcheck: boom").data ∧
    ("Error running cppcheck: boom").data ≠ [] := ⟨rfl, by decide⟩

/-- C9 amended.  A static-analysis failure is recovered locally without
raising — `check_code_snippet` returns the (non-empty) diagnostic
`"Error running cppcheck: <e>"` instead of empty findings — and that text is
*emitted into the prompt* as a non-empty static-findings section; the
analysis then proceeds normally, and the caller of one analysis receives the
normal model-derived result, not an error record. -/
theorem C9_absorbed_static_failure :
    (∀ (tempPath e : Str),
        check_code_snippet tempPath (.error e) = ("Error running cppcheck: ").data ++ e ∧
        check_code_snippet tempPath (.error e) ≠ []) ∧
    (∀ e : Str,
        staticSection (("Error running cppcheck: ").data ++ e) =
          ("\n**Static Analysis Findings (CppCheck):**\n").data ++
            (("Error running cppcheck: ").data ++ e) ++
            ("\n(Note: Use these findings as strong evidence, but verify them against the context.)\n").data ∧
        staticSection (("Error running cppcheck: ").data ++ e) ≠ []) ∧
    (∀ (entry_id code context : Str) (so : Except String (List Json))
        (lh : Except String HttpResponse) (tempPath e : Str) (r : AgentRecord),
        analyzeCore entry_id code context
            ⟨so, .ok (check_code_snippet tempPath (.error e)), lh⟩ = .ok r →
        analyze_entry entry_id code context
            ⟨so, .ok (check_code_snippet tempPath (.error e)), lh⟩ = r) := by
  refine ⟨?_, ?_, ?_⟩
  · intro tempPath e
    exact ⟨rfl, by simp [check_code_snippet]⟩
  · intro e
    have hne : (("Error running cppcheck: ").data ++ e) ≠ [] := by simp
    have hstrip : pyStrip (("Error running cppcheck: ").data ++ e) ≠ [] :=
      pyStrip_cons_ne_nil 'E' _ (by decide)
    constructor
    · unfold staticSection
      rw [if_pos ⟨hne, hstrip⟩]
    · unfold staticSection
      rw [if_pos ⟨hne, hstrip⟩]
      simp
  · intro entry_id code context so lh tempPath e r h
    unfold analyze_entry
    rw [h]

/-- Witness for the amended C9 at a concrete failing checker. -/
theorem C9_absorbed_static_failure_witness :
    check_code_snippet (("/tmp/x.cpp").data) (.error (("no cppcheck binary").data)) =
      ("Error running cppcheck: ").data ++ (("no cppcheck binary").data) :=
  (C9_absorbed_static_failure.1 (("/tmp/x.cpp").data) (("no cppcheck binary").data)).1

/-- The decimal value of a keyed element's sort key (score), for numeric
keys. -/
def keyDec (p : Json × Json) : Int × Nat := (jsonNumDec p.1).getD (0, 0)

/-- Keyed element `a` sorts at or before `b` in descending score order. -/
def keyGeQ (a b : Json × Json) : Prop := decVal (keyDec b) ≤ decVal (keyDec a)

/-- The boolean decimal comparison agrees with the rational value order. -/
theorem decLtB_iff (a b : Int × Nat) : decLtB a b = true ↔ decVal a < decVal b := by
  unfold decLtB decVal
  rw [decide_eq_true_eq]
  rw [div_lt_div_iff₀ (by positivity) (by positivity)]
  constructor
  · intro h
    exact_mod_cast h
  · intro h
    exact_mod_cast h

/-- On numeric arguments, Python `<` succeeds and returns the decimal
comparison of the values. -/
theorem pyLt_numeric (a b : Json) (da db : Int × Nat)
    (ha : jsonNumDec a = some da) (hb : jsonNumDec b = some db) :
    pyLt a b = .ok (decLtB da db) := by
  unfold pyLt
  simp only [pyLtFuel, ha, hb]

/-- Inserting a numeric-keyed element into a numeric-keyed list succeeds,
permutes, and preserves descending sortedness. -/
theorem insertDesc_numeric (l : List (Json × Json)) (x : Json × Json)
    (dx : Int × Nat) (hdx : jsonNumDec x.1 = some dx)
    (hl : ∀ p ∈ l, ∃ d, jsonNumDec p.1 = some d) :
    ∃ m, insertDesc x l = .ok m ∧ m.Perm (x :: l) ∧
      (List.Pairwise keyGeQ l → List.Pairwise keyGeQ m) := by
  induction l with
  | nil => exact ⟨[x], rfl, List.Perm.refl _, fun _ => List.pairwise_singleton _ _⟩
  | cons y ys ih =>
    obtain ⟨dy, hdy⟩ := hl y (List.mem_cons_self y ys)
    have hpy : pyLt x.1 y.1 = .ok (decLtB dx dy) := pyLt_numeric _ _ _ _ hdx hdy
    have hkx : keyDec x = dx := by simp [keyDec, hdx]
    have hky : keyDec y = dy := by simp [keyDec, hdy]
    by_cases hlt : decLtB dx dy = true
    · obtain ⟨m0, hm0, hperm0, hsort0⟩ := ih (fun p hp => hl p (List.mem_cons_of_mem _ hp))
      refine ⟨y :: m0, ?_, ?_, ?_⟩
      · simp only [insertDesc, hpy, bind, Except.bind, hlt, if_true, hm0]
      · exact (hperm0.cons y).trans (List.Perm.swap x y ys)
      · intro hp
        have hys : List.Pairwise keyGeQ ys := hp.of_cons
        refine List.Pairwise.cons ?_ (hsort0 hys)
        intro z hz
        rcases List.mem_cons.mp ((hperm0.mem_iff).mp hz) with rfl | hz2
        · show decVal (keyDec z) ≤ decVal (keyDec y)
          rw [hkx, hky]
          exact le_of_lt ((decLtB_iff dx dy).mp hlt)
        · exact List.rel_of_pairwise_cons hp hz2
    · refine ⟨x :: y :: ys, ?_, List.Perm.refl _, ?_⟩
      · simp only [insertDesc, hpy, bind, Except.bind]
        rw [if_neg hlt]
      · intro hp
        have hyx : keyGeQ x y := by
          show decVal (keyDec y) ≤ decVal (keyDec x)
          rw [hkx, hky]
          exact le_of_not_lt (fun hc => hlt ((decLtB_iff dx dy).mpr hc))
        refine List.Pairwise.cons ?_ hp
        intro z hz
        rcases List.mem_cons.mp hz with rfl | hz2
        · exact hyx
        · exact le_trans (List.rel_of_pairwise_cons hp hz2) hyx

/-- Sorting a numeric-keyed list succeeds, permutes the input, and produces a
descending sequence of score values. -/
theorem sortDescM_numeric (l : List (Json × Json))
    (hl : ∀ p ∈ l, ∃ d, jsonNumDec p.1 = some d) :
    ∃ m, sortDescM l = .ok m ∧ m.Perm l ∧ List.Pairwise keyGeQ m := by
  induction l with
  | nil => exact ⟨[], rfl, List.Perm.refl _, List.Pairwise.nil⟩
  | cons x xs ih =>
    obtain ⟨s, hs, hperm, hsort⟩ := ih (fun p hp => hl p (List.mem_cons_of_mem _ hp))
    obtain ⟨dx, hdx⟩ := hl x (List.mem_cons_self x xs)
    obtain ⟨m, hm, hperm2, hsort2⟩ :=
      insertDesc_numeric s x dx hdx
        (fun p hp => hl p (List.mem_cons_of_mem _ (hperm.mem_iff.mp hp)))
    refine ⟨m, ?_, ?_, hsort2 hsort⟩
    · simp only [sortDescM, hs, bind, Except.bind, hm]
    · exact hperm2.trans (hperm.cons x)

/-- C7.  The Evidence Formatter sorts the hits descending by score (stable),
takes the first `k`, drops hits whose stripped text is empty, and renders
each survivor as a block labelled with its 1-based rank in the sorted
truncated list and its score to 3 decimal places, blocks joined by blank
lines; the empty input yields the empty string, as does an input whose hits
all have blank text.  Conjuncts: (1) on numeric scores the sort succeeds and
yields a permutation in descending score order; (2) empty input; (3) the
B-before-A example; (4) a tie keeps source order (stability); (5) a
blank-text hit is dropped but still consumes its rank, and `k` truncates;
(6) all-blank input yields the empty string. -/
theorem C7_evidence_formatter :
    (∀ l : List (Json × Json), (∀ p ∈ l, ∃ d, jsonNumDec p.1 = some d) →
        ∃ m, sortDescM l = .ok m ∧ m.Perm l ∧ List.Pairwise keyGeQ m) ∧
    (∀ k, format_rag_docs [] k = .ok []) ∧
    (format_rag_docs
        [.obj [(("text").data, .str (("A").data)), (("score").data, .float 2 1)],
         .obj [(("text").data, .str (("B").data)), (("score").data, .float 9 1)]] 5 =
      .ok (("[Doc 1 (relevance: 0.900)]:\nB\n\n[Doc 2 (relevance: 0.200)]:\nA").data)) ∧
    (format_rag_docs
        [.obj [(("text").data, .str (("A").data)), (("score").data, .float 5 1)],
         .obj [(("text").data, .str (("B").data)), (("score").data, .float 5 1)]] 5 =
      .ok (("[Doc 1 (relevance: 0.500)]:\nA\n\n[Doc 2 (relevance: 0.500)]:\nB").data)) ∧
    (format_rag_docs
        [.obj [(("text").data, .str (("   ").data)), (("score").data, .float 9 1)],
         .obj [(("text").data, .str (("A").data)), (("score").data, .float 5 1)],
         .obj [(("text").data, .str (("B").data)), (("score").data, .float 4 1)]] 2 =
      .ok (("[Doc 2 (relevance: 0.500)]:\nA").data)) ∧
    (format_rag_docs [.obj [(("text").data, .str (("   ").data))]] 5 = .ok []) := by
  refine ⟨sortDescM_numeric, fun k => rfl, rfl, rfl, rfl, rfl⟩

/-- Witness for C7: the general sorting conjunct applied to a concrete
numeric-keyed list. -/
theorem C7_evidence_formatter_witness :
    ∃ m, sortDescM [((.float 2 1 : Json), (.str (("A").data) : Json)),
                    ((.float 9 1 : Json), (.str (("B").data) : Json))] = .ok m ∧
      m.Perm [((.float 2 1 : Json), (.str (("A").data) : Json)),
              ((.float 9 1 : Json), (.str (("B").data) : Json))] ∧
      List.Pairwise keyGeQ m :=
  C7_evidence_formatter.1 _ (by intro p hp; fin_cases hp <;> exact ⟨_, rfl⟩)

/-- Inversion of a successful `analyzeCore` run: the returned record was
assembled from some normalized parse result, with the entry id, the
comma-joined bug lines (or `""`), the `"; "`-joined explanations (or
`"No bugs detected"`), the pass-through corrected code, and the raw retrieval
docs. -/
theorem analyzeCore_ok_shape (entry_id code context : Str) (st : StepOutcomes)
    (r : AgentRecord) (h : analyzeCore entry_id code context st = .ok r) :
    ∃ pr : ParseResult,
      r = ⟨entry_id,
           (if pr.bug_lines ≠ [] then List.intercalate [','] pr.bug_lines else []),
           (if pr.explanations ≠ [] then List.intercalate ['\x3b', ' '] pr.explanations
            else ("No bugs detected").data),
           pr.corrected_code,
           search_docs st.searchOutcome⟩ := by
  unfold analyzeCore at h
  simp only [bind, Except.bind] at h
  split at h
  · exact absurd h (by simp)
  split at h
  · exact absurd h (by simp)
  split at h
  · exact absurd h (by simp)
  split at h
  · exact absurd h (by simp)
  split at h
  · exact absurd h (by simp)
  simp only [Except.ok.injEq] at h
  exact ⟨_, h.symm⟩

/-- C10.  For every entry and any collaborator behaviour, the record
`analyze_entry` returns has exactly the five fields ID / Bug Line /
Explanation / Corrected Code / RAG Docs (the `AgentRecord` type), its id
field equals the id argument on both paths, the error path fills the fields
as in C2, and the success path fills Bug Line with the comma-joined bug
lines (`""` when empty) and Explanation with the `"; "`-joined explanations
(`"No bugs detected"` when empty) — both strings. -/
theorem C10_record_shape (entry_id code context : Str) (st : StepOutcomes) :
    (analyze_entry entry_id code context st).id = entry_id ∧
    (∀ e, analyzeCore entry_id code context st = .error e →
        analyze_entry entry_id code context st =
          ⟨entry_id, [], ("Error: ").data ++ e.data, .str [], []⟩) ∧
    (∀ r, analyzeCore entry_id code context st = .ok r →
        analyze_entry entry_id code context st = r ∧
        ∃ pr : ParseResult,
          r = ⟨entry_id,
               (if pr.bug_lines ≠ [] then List.intercalate [','] pr.bug_lines else []),
               (if pr.explanations ≠ [] then List.intercalate ['\x3b', ' '] pr.explanations
                else ("No bugs detected").data),
               pr.corrected_code,
               search_docs st.searchOutcome⟩) := by
  refine ⟨?_, ?_, ?_⟩
  · rcases hcore : analyzeCore entry_id code context st with e | r
    · unfold analyze_entry
      rw [hcore]
    · unfold analyze_entry
      rw [hcore]
      obtain ⟨pr, hpr⟩ := analyzeCore_ok_shape _ _ _ _ _ hcore
      rw [hpr]
  · intro e h
    unfold analyze_entry
    rw [h]
  · intro r h
    refine ⟨?_, analyzeCore_ok_shape _ _ _ _ _ h⟩
    unfold analyze_entry
    rw [h]

/-- Witness for C10 on a concrete successful analysis. -/
theorem C10_record_shape_witness :
    analyze_entry (("ID1").data) (("code").data) (("ctx").data)
        ⟨.ok [], .ok [],
         .ok ⟨200, .ok (.obj [(("choices").data,
           .arr [.obj [(("message").data,
             .obj [(("content").data, .str (("Line 1: bad").data))])]])])⟩⟩ =
      ⟨("ID1").data, ['1'], ("bad").data, .str [], []⟩ :=
  ((C10_record_shape (("ID1").data) (("code").data) (("ctx").data)
      ⟨.ok [], .ok [],
       .ok ⟨200, .ok (.obj [(("choices").data,
         .arr [.obj [(("message").data,
           .obj [(("content").data, .str (("Line 1: bad").data))])]])])⟩⟩).2.2
    ⟨("ID1").data, ['1'], ("bad").data, .str [], []⟩ rfl).1

end BugHunter
